import Mathlib

/-!
Verification of the `BaseModel` class of `src/xinfer/models.py` (repository
`x.infer`): a shallow embedding of its data model and operations, followed by
theorems about construction-time precision validation, the inference-time
statistics, and the `parse_images` helper.

Python floats are modelled as rationals (`ℚ`), Python ints as `Int`, and the
effectful collaborators of `parse_images` (`requests.get` + `PIL.Image.open`)
as an explicit environment of oracle functions returning `Except`.
-/

/-- Python exceptions that the code raises or handles.
`valueError` covers the `ValueError`s raised by `models.py` (the spec calls
these `InvalidConfiguration` / `InvalidInput`); `fileNotFoundError` is the
`FileNotFoundError` caught at line 128; `otherError` stands for every other
exception (network failure, corrupt image, ...), which the code never
catches. -/
inductive PyErr where
  | valueError (msg : String)
  | fileNotFoundError
  | otherError
deriving DecidableEq

/-- The three `torch` dtype objects appearing in `dtype_map`. -/
inductive TorchDtype where
  | float32
  | float16
  | bfloat16
deriving DecidableEq

/-- The dictionary `dtype_map` of `BaseModel.__init__` (lines 27-31). -/
def dtype_map (s : String) : Option TorchDtype :=
  if s = "float32" then some TorchDtype.float32
  else if s = "float16" then some TorchDtype.float16
  else if s = "bfloat16" then some TorchDtype.bfloat16
  else none

/-- The mutable attributes of a `BaseModel` instance after a successful
`__init__`: configuration (`model_id`, `device`, the mapped `dtype`) and the
inference statistics.  `num_inferences` is a Python int (`Int`), the two time
fields are Python floats, modelled exactly as rationals. -/
structure BaseModelState where
  model_id : String
  device : String
  dtype : TorchDtype
  num_inferences : Int
  total_inference_time : ℚ
  average_latency : ℚ
deriving DecidableEq

/-- The three `logger.info` lines of `__init__` (lines 23-25), emitted before
`dtype` is validated against `dtype_map`. -/
def initLogs (model_id device dtype : String) : List String :=
  ["Model: " ++ model_id, "Device: " ++ device, "Dtype: " ++ dtype]

/-- `BaseModel.__init__` (lines 15-34): returns the emitted log lines together
with either the constructed state or the `ValueError` raised when `dtype` is
not a key of `dtype_map`.  The logs are emitted unconditionally because the
`logger.info` calls precede the validation. -/
def initModel (model_id device dtype : String) :
    List String × Except PyErr BaseModelState :=
  (initLogs model_id device dtype,
   match dtype_map dtype with
   | some d =>
       Except.ok
         { model_id := model_id
           device := device
           dtype := d
           num_inferences := 0
           total_inference_time := 0
           average_latency := 0 }
   | none =>
       Except.error (PyErr.valueError
         "dtype must be one of \x27float32\x27, \x27float16\x27, or \x27bfloat16\x27"))

/-- `BaseModel.update_inference_count` (lines 63-69): add `count` to
`num_inferences`, then recompute `average_latency` from the accumulators
(Python truthiness: the division branch is taken exactly when the new
`num_inferences` is nonzero). -/
def update_inference_count (s : BaseModelState) (count : Int) : BaseModelState :=
  let s1 := { s with num_inferences := s.num_inferences + count }
  { s1 with
      average_latency :=
        if s1.num_inferences ≠ 0 then
          s1.total_inference_time / (s1.num_inferences : ℚ)
        else 0 }

/-- The state effect of the `finally` block of
`BaseModel.track_inference_time` (lines 54-61): add
`(end_time - start_time) * 1000` to `total_inference_time`.  The two clock
readings `time.perf_counter()` are passed in explicitly. -/
def track_inference_time (s : BaseModelState) (start_time end_time : ℚ) :
    BaseModelState :=
  { s with
      total_inference_time :=
        s.total_inference_time + (end_time - start_time) * 1000 }

/-- Running a wrapped operation inside `with self.track_inference_time()`:
whatever the body did (returned a value or raised), the `finally` block runs
and the body outcome is passed through unchanged. -/
def track_inference_time_run {α : Type} (s : BaseModelState)
    (start_time end_time : ℚ) (body : Except PyErr α) :
    BaseModelState × Except PyErr α :=
  (track_inference_time s start_time end_time, body)

/-- One statistics-mutating operation of the class: a closed timed region
(with its two clock readings) or a call to `update_inference_count`. -/
inductive ModelOp where
  | track (start_time end_time : ℚ)
  | update (count : Int)

/-- Apply one operation to the state. -/
def applyOp (s : BaseModelState) : ModelOp → BaseModelState
  | ModelOp.track st et => track_inference_time s st et
  | ModelOp.update c => update_inference_count s c

/-- Apply a sequence of operations in order. -/
def applyOps (s : BaseModelState) (ops : List ModelOp) : BaseModelState :=
  ops.foldl applyOp s

/-- The stated usage precondition: clock readings are monotone
(`time.perf_counter` never runs backwards) and `update_inference_count` is
only called with a positive count. -/
def WFOp : ModelOp → Prop
  | ModelOp.track st et => st ≤ et
  | ModelOp.update c => 0 < c

/-- The consistency predicate of the spec: `average_latency_ms` equals
`total_inference_time_ms / num_inferences` when `num_inferences > 0` and
`0.0` otherwise. -/
def averageConsistent (s : BaseModelState) : Prop :=
  if 0 < s.num_inferences then
    s.average_latency = s.total_inference_time / (s.num_inferences : ℚ)
  else s.average_latency = 0

/-- A `PIL.Image.Image`: opaque pixel data with a mode string (`convert`
changes the mode). -/
structure PILImage where
  data : String
  mode : String
deriving DecidableEq

/-- `Image.convert("RGB")`. -/
def convertRGB (img : PILImage) : PILImage :=
  { img with mode := "RGB" }

/-- A Python value passed as one element of `parse_images`' input; the code
only distinguishes strings from everything else via `isinstance(_, str)`. -/
inductive PyObj where
  | str (s : String)
  | int (n : Int)
  | pyNone
deriving DecidableEq

/-- The argument of `parse_images`: either a single value or a Python list
(the code tests `isinstance(images, list)`). -/
inductive ImagesInput where
  | single (x : PyObj)
  | list (xs : List PyObj)
deriving DecidableEq

/-- The normalisation at lines 112-113: a non-list argument is wrapped into a
one-element list. -/
def normalizeImages : ImagesInput → List PyObj
  | ImagesInput.single x => [x]
  | ImagesInput.list xs => xs

/-- The effectful collaborators of `parse_images`, as oracles:
`requestsGetOpen url` is `Image.open(requests.get(url, stream=True).raw)` and
`imageOpen path` is `Image.open(path)`.  Either may fail with any
exception. -/
structure ImageEnv where
  requestsGetOpen : String → Except PyErr PILImage
  imageOpen : String → Except PyErr PILImage

/-- Python `s.startswith(p)`: `p`'s characters are a prefix of `s`'s. -/
def pyStartsWith (s p : String) : Bool :=
  p.data.isPrefixOf s.data

/-- The body of the `for image_path in images` loop (lines 116-129) for one
element: a non-string raises `ValueError`; an `http(s)` URL is fetched and
decoded with failures propagating; anything else is opened as a local path,
with `FileNotFoundError` rewrapped as a `ValueError` naming the path and
every other failure propagating. -/
def parseOneImage (env : ImageEnv) (image_path : PyObj) : Except PyErr PILImage :=
  match image_path with
  | PyObj.str s =>
      if pyStartsWith s "http://" || pyStartsWith s "https://" then
        (env.requestsGetOpen s).map convertRGB
      else
        match env.imageOpen s with
        | Except.ok img => Except.ok (convertRGB img)
        | Except.error PyErr.fileNotFoundError =>
            Except.error (PyErr.valueError ("Local file not found: " ++ s))
        | Except.error e => Except.error e
  | _ => Except.error (PyErr.valueError "Input must be a string (local path or URL)")

/-- The loop of `parse_images`: elements are processed one at a time in input
order, appending to `parsed_images`; the first failure aborts the call. -/
def parseImagesLoop (env : ImageEnv) : List PyObj → Except PyErr (List PILImage)
  | [] => Except.ok []
  | x :: rest =>
      match parseOneImage env x with
      | Except.error e => Except.error e
      | Except.ok img =>
          match parseImagesLoop env rest with
          | Except.error e => Except.error e
          | Except.ok imgs => Except.ok (img :: imgs)

/-- `BaseModel.parse_images` (lines 94-133). -/
def parse_images (env : ImageEnv) (images : ImagesInput) :
    Except PyErr (List PILImage) :=
  parseImagesLoop env (normalizeImages images)

/-- A concrete successfully-constructed state, used by witnesses. -/
def exampleState0 : BaseModelState :=
  { model_id := "m"
    device := "cpu"
    dtype := TorchDtype.float32
    num_inferences := 0
    total_inference_time := 0
    average_latency := 0 }

/-- C1: `update_inference_count(c)` on a state with `num_inferences = n` and
`total_inference_time_ms = T` sets `num_inferences` to `n + c` and
`average_latency_ms` to `T / (n + c)` exactly, or to `0.0` when `n + c = 0`;
the time accumulator is untouched. -/
theorem update_inference_count_spec (s : BaseModelState) (c : Int) :
    (update_inference_count s c).num_inferences = s.num_inferences + c ∧
    (update_inference_count s c).average_latency =
      (if s.num_inferences + c = 0 then 0
       else s.total_inference_time / ((s.num_inferences + c : Int) : ℚ)) ∧
    (update_inference_count s c).total_inference_time = s.total_inference_time := by
  refine ⟨rfl, ?_, rfl⟩
  unfold update_inference_count
  by_cases h : s.num_inferences + c = 0 <;> simp [h]

/-- C2 counterexample: start from a freshly constructed instance, record one
inference (`update_inference_count 1`), then close a timed region that added
10ms.  `average_latency` is left at its old value `0` while
`total_inference_time / num_inferences = 10`: the close of the scoped timing
region does leave the average stale. -/
theorem track_leaves_average_stale :
    (initModel "m" "cpu" "float32").2 = Except.ok exampleState0 ∧
    ¬ averageConsistent
        (track_inference_time (update_inference_count exampleState0 1) 0 (1 / 100)) := by
  constructor
  · rfl
  · intro h
    unfold averageConsistent at h
    norm_num [track_inference_time, update_inference_count, exampleState0] at h

/-- C2 amended: `average_latency_ms` is consistent with the two accumulators
immediately after `update_inference_count` (whenever the resulting count is
non-negative, as the stated positive-count usage guarantees); the close of the
scoped timing region updates only `total_inference_time_ms` and does not
recompute the average. -/
theorem update_inference_count_consistent (s : BaseModelState) (c : Int)
    (h : 0 ≤ s.num_inferences + c) :
    averageConsistent (update_inference_count s c) ∧
    (track_inference_time s 0 0).average_latency = s.average_latency := by
  refine ⟨?_, rfl⟩
  unfold averageConsistent update_inference_count
  rcases lt_or_eq_of_le h with hlt | heq
  · simp [hlt, ne_of_gt hlt]
  · simp [← heq]

/-- Witness for `update_inference_count_consistent` at a concrete state. -/
theorem update_inference_count_consistent_witness :
    averageConsistent (update_inference_count exampleState0 2) ∧
    (track_inference_time exampleState0 0 0).average_latency =
      exampleState0.average_latency :=
  update_inference_count_consistent exampleState0 2 (by decide)

/-- C3: construction succeeds exactly for `"float32"`, `"float16"`,
`"bfloat16"`, storing the value `dtype_map` assigns to the string (and zeroed
statistics); for every other string it raises the `ValueError` naming the
three allowed values, so no instance is produced. -/
theorem init_precision_validation (mid dev dt : String) :
    ((dt = "float32" ∨ dt = "float16" ∨ dt = "bfloat16") ∧
      ∃ st, (initModel mid dev dt).2 = Except.ok st ∧ dtype_map dt = some st.dtype ∧
        st.model_id = mid ∧ st.device = dev ∧ st.num_inferences = 0 ∧
        st.total_inference_time = 0 ∧ st.average_latency = 0)
    ∨ (¬(dt = "float32" ∨ dt = "float16" ∨ dt = "bfloat16") ∧
      (initModel mid dev dt).2 = Except.error (PyErr.valueError
        "dtype must be one of \x27float32\x27, \x27float16\x27, or \x27bfloat16\x27")) := by
  by_cases h1 : dt = "float32"
  · subst h1
    exact Or.inl ⟨Or.inl rfl,
      ⟨mid, dev, TorchDtype.float32, 0, 0, 0⟩, rfl, rfl, rfl, rfl, rfl, rfl, rfl⟩
  · by_cases h2 : dt = "float16"
    · subst h2
      exact Or.inl ⟨Or.inr (Or.inl rfl),
        ⟨mid, dev, TorchDtype.float16, 0, 0, 0⟩, rfl, rfl, rfl, rfl, rfl, rfl, rfl⟩
    · by_cases h3 : dt = "bfloat16"
      · subst h3
        exact Or.inl ⟨Or.inr (Or.inr rfl),
          ⟨mid, dev, TorchDtype.bfloat16, 0, 0, 0⟩, rfl, rfl, rfl, rfl, rfl, rfl, rfl⟩
      · exact Or.inr ⟨by simp [h1, h2, h3], by simp [initModel, dtype_map, h1, h2, h3]⟩

/-- C4: for any clock readings with `start_time ≤ end_time` (monotonicity of
`time.perf_counter`) and any body outcome (normal return or raised
exception), closing the timed region adds the non-negative duration
`(end_time - start_time) * 1000` to `total_inference_time`, never decreases
it, leaves `num_inferences` unchanged, and passes the body outcome through. -/
theorem track_inference_time_spec {α : Type} (s : BaseModelState)
    (st et : ℚ) (h : st ≤ et) (body : Except PyErr α) :
    (track_inference_time_run s st et body).1.total_inference_time =
      s.total_inference_time + (et - st) * 1000 ∧
    s.total_inference_time ≤
      (track_inference_time_run s st et body).1.total_inference_time ∧
    (track_inference_time_run s st et body).1.num_inferences = s.num_inferences ∧
    (track_inference_time_run s st et body).2 = body := by
  refine ⟨rfl, ?_, rfl, rfl⟩
  have hnn : (0 : ℚ) ≤ (et - st) * 1000 := by
    have : (0 : ℚ) ≤ et - st := by linarith
    positivity
  show s.total_inference_time ≤ s.total_inference_time + (et - st) * 1000
  linarith

/-- Witness for `track_inference_time_spec`: a raising body on a concrete
state still gets 10ms recorded. -/
theorem track_inference_time_spec_witness :
    (track_inference_time_run exampleState0 0 (1 / 100)
        (Except.error PyErr.otherError : Except PyErr Unit)).1.total_inference_time =
      exampleState0.total_inference_time + (1 / 100 - 0) * 1000 ∧
    exampleState0.total_inference_time ≤
      (track_inference_time_run exampleState0 0 (1 / 100)
        (Except.error PyErr.otherError : Except PyErr Unit)).1.total_inference_time ∧
    (track_inference_time_run exampleState0 0 (1 / 100)
        (Except.error PyErr.otherError : Except PyErr Unit)).1.num_inferences =
      exampleState0.num_inferences ∧
    (track_inference_time_run exampleState0 0 (1 / 100)
        (Except.error PyErr.otherError : Except PyErr Unit)).2 =
      (Except.error PyErr.otherError : Except PyErr Unit) :=
  track_inference_time_spec exampleState0 0 (1 / 100) (by norm_num)
    (Except.error PyErr.otherError)

/-- One well-formed operation preserves non-negativity of the counter and the
time accumulator. -/
theorem applyOp_nonneg (s : BaseModelState) (op : ModelOp) (hw : WFOp op)
    (h1 : 0 ≤ s.num_inferences) (h2 : 0 ≤ s.total_inference_time) :
    0 ≤ (applyOp s op).num_inferences ∧ 0 ≤ (applyOp s op).total_inference_time := by
  cases op with
  | track st et =>
      refine ⟨h1, ?_⟩
      have hle : st ≤ et := hw
      have hnn : (0 : ℚ) ≤ (et - st) * 1000 := by
        have h3 : (0 : ℚ) ≤ et - st := by linarith
        positivity
      show (0 : ℚ) ≤ s.total_inference_time + (et - st) * 1000
      linarith
  | update c =>
      refine ⟨?_, h2⟩
      have hc : 0 < c := hw
      show (0 : Int) ≤ s.num_inferences + c
      omega

/-- A sequence of well-formed operations preserves non-negativity. -/
theorem applyOps_nonneg (s : BaseModelState) (ops : List ModelOp)
    (hw : ∀ op ∈ ops, WFOp op)
    (h1 : 0 ≤ s.num_inferences) (h2 : 0 ≤ s.total_inference_time) :
    0 ≤ (applyOps s ops).num_inferences ∧
    0 ≤ (applyOps s ops).total_inference_time := by
  induction ops generalizing s with
  | nil => exact ⟨h1, h2⟩
  | cons op rest ih =>
      have hop := applyOp_nonneg s op (hw op (by simp)) h1 h2
      exact ih (applyOp s op) (fun o ho => hw o (by simp [ho])) hop.1 hop.2

/-- C9: a successfully constructed instance starts with `num_inferences = 0`
and `total_inference_time = 0.0`, and after any sequence of operations of the
class (timed regions with monotone clock readings, `update_inference_count`
with positive counts) both remain non-negative. -/
theorem stats_init_zero_nonneg (mid dev dt : String) (st : BaseModelState)
    (h : (initModel mid dev dt).2 = Except.ok st) (ops : List ModelOp)
    (hw : ∀ op ∈ ops, WFOp op) :
    st.num_inferences = 0 ∧ st.total_inference_time = 0 ∧
    0 ≤ (applyOps st ops).num_inferences ∧
    0 ≤ (applyOps st ops).total_inference_time := by
  have hz : st.num_inferences = 0 ∧ st.total_inference_time = 0 := by
    rcases hd : dtype_map dt with _ | d <;> simp [initModel, hd] at h
    exact ⟨by rw [← h], by rw [← h]⟩
  have hmain := applyOps_nonneg st ops hw (by rw [hz.1]) (by rw [hz.2])
  exact ⟨hz.1, hz.2, hmain.1, hmain.2⟩

/-- Witness for `stats_init_zero_nonneg`: the spec's end-to-end example —
construct with precision `"float32"`, time one 10ms region, count 2
inferences. -/
theorem stats_init_zero_nonneg_witness :
    exampleState0.num_inferences = 0 ∧ exampleState0.total_inference_time = 0 ∧
    0 ≤ (applyOps exampleState0
          [ModelOp.track 0 (1 / 100), ModelOp.update 2]).num_inferences ∧
    0 ≤ (applyOps exampleState0
          [ModelOp.track 0 (1 / 100), ModelOp.update 2]).total_inference_time :=
  stats_init_zero_nonneg "m" "cpu" "float32" exampleState0 rfl
    [ModelOp.track 0 (1 / 100), ModelOp.update 2]
    (by
      intro op hop
      simp only [List.mem_cons, List.not_mem_nil, or_false] at hop
      rcases hop with rfl | rfl
      · show (0 : ℚ) ≤ 1 / 100
        norm_num
      · show (0 : Int) < 2
        norm_num)

/-- C10: for every argument triple — supported precision or not — `__init__`
emits exactly the three informational log lines (identifier, device,
precision), because the `logger.info` calls precede the validation; in
particular a failing construction has already emitted all three. -/
theorem init_logs_unconditional (mid dev dt : String) :
    (initModel mid dev dt).1 =
      ["Model: " ++ mid, "Device: " ++ dev, "Dtype: " ++ dt] := rfl

/-- A concrete oracle environment for witnesses: one reachable URL, one
existing local file, everything else failing/missing. -/
def demoEnv : ImageEnv :=
  { requestsGetOpen := fun url =>
      if url = "http://example.com/cat.jpg" then
        Except.ok { data := "catbytes", mode := "RGBA" }
      else Except.error PyErr.otherError
    imageOpen := fun path =>
      if path = "a.jpg" then Except.ok { data := "abytes", mode := "L" }
      else Except.error PyErr.fileNotFoundError }

/-- An oracle environment with no connectivity (every fetch raises) and no
local files (every open raises `FileNotFoundError`). -/
def failEnv : ImageEnv :=
  { requestsGetOpen := fun _ => Except.error PyErr.otherError
    imageOpen := fun _ => Except.error PyErr.fileNotFoundError }

/-- A successful loop run returns one decoded image per input element, in
input order. -/
theorem parseImagesLoop_length_get (env : ImageEnv) :
    ∀ (xs : List PyObj) (out : List PILImage),
      parseImagesLoop env xs = Except.ok out →
      out.length = xs.length ∧
      ∀ i : Nat, (xs[i]?).map (parseOneImage env) = (out[i]?).map Except.ok := by
  intro xs
  induction xs with
  | nil =>
      intro out h
      cases h
      exact ⟨rfl, fun i => by simp⟩
  | cons x rest ih =>
      intro out h
      unfold parseImagesLoop at h
      cases hx : parseOneImage env x with
      | error e => rw [hx] at h; cases h
      | ok img =>
          rw [hx] at h
          cases hr : parseImagesLoop env rest with
          | error e => rw [hr] at h; cases h
          | ok imgs =>
              rw [hr] at h
              cases h
              obtain ⟨hlen, hget⟩ := ih imgs hr
              refine ⟨by simp [hlen], ?_⟩
              intro i
              cases i with
              | zero => simp [hx]
              | succ j => simpa using hget j

/-- A successful loop run means every element decoded successfully. -/
theorem parseImagesLoop_ok_mem (env : ImageEnv) :
    ∀ (xs : List PyObj) (out : List PILImage),
      parseImagesLoop env xs = Except.ok out →
      ∀ x ∈ xs, ∃ img, parseOneImage env x = Except.ok img := by
  intro xs
  induction xs with
  | nil => intro out h x hx; cases hx
  | cons y rest ih =>
      intro out h x hx
      unfold parseImagesLoop at h
      cases hy : parseOneImage env y with
      | error e => rw [hy] at h; cases h
      | ok img =>
          rw [hy] at h
          cases hr : parseImagesLoop env rest with
          | error e => rw [hr] at h; cases h
          | ok imgs =>
              rcases List.mem_cons.mp hx with rfl | hmem
              · exact ⟨img, hy⟩
              · exact ih imgs hr x hmem

/-- If every element of `pre` decodes and the next element raises `e`, the
loop over `pre ++ x :: post` raises `e`. -/
theorem parseImagesLoop_append_error (env : ImageEnv) (pre : List PyObj)
    (hpre : ∀ y ∈ pre, ∃ img, parseOneImage env y = Except.ok img)
    (x : PyObj) (e : PyErr) (hx : parseOneImage env x = Except.error e)
    (post : List PyObj) :
    parseImagesLoop env (pre ++ x :: post) = Except.error e := by
  induction pre with
  | nil => simp [parseImagesLoop, hx]
  | cons y rest ih =>
      obtain ⟨img, hy⟩ := hpre y (by simp)
      have hrest := ih (fun z hz => hpre z (by simp [hz]))
      simp [parseImagesLoop, hy, hrest]

/-- C5: when `parse_images` succeeds on a list, the output has the same
length as the input and the image at each position is exactly the decode
(fetch-or-open, then RGB conversion) of the reference at that position —
whether it is a URL or a local path. -/
theorem parse_images_preserves_order (env : ImageEnv) (xs : List PyObj)
    (out : List PILImage)
    (h : parse_images env (ImagesInput.list xs) = Except.ok out) :
    out.length = xs.length ∧
    ∀ i : Nat, (xs[i]?).map (parseOneImage env) = (out[i]?).map Except.ok :=
  parseImagesLoop_length_get env xs out h

/-- Witness for `parse_images_preserves_order`: one URL and one local path. -/
theorem parse_images_preserves_order_witness :
    ([⟨"catbytes", "RGB"⟩, ⟨"abytes", "RGB"⟩] : List PILImage).length =
      [PyObj.str "http://example.com/cat.jpg", PyObj.str "a.jpg"].length ∧
    ∀ i : Nat,
      ([PyObj.str "http://example.com/cat.jpg", PyObj.str "a.jpg"][i]?).map
          (parseOneImage demoEnv) =
        (([⟨"catbytes", "RGB"⟩, ⟨"abytes", "RGB"⟩] : List PILImage)[i]?).map
          Except.ok :=
  parse_images_preserves_order demoEnv
    [PyObj.str "http://example.com/cat.jpg", PyObj.str "a.jpg"]
    [⟨"catbytes", "RGB"⟩, ⟨"abytes", "RGB"⟩] rfl

/-- C6: a single string reference and the one-element list holding it are
processed identically, and a successful result is a one-element sequence. -/
theorem parse_images_single_eq_singleton (env : ImageEnv) (s : String) :
    parse_images env (ImagesInput.single (PyObj.str s)) =
      parse_images env (ImagesInput.list [PyObj.str s]) ∧
    ∀ out, parse_images env (ImagesInput.single (PyObj.str s)) = Except.ok out →
      out.length = 1 := by
  refine ⟨rfl, ?_⟩
  intro out h
  have hlen := (parseImagesLoop_length_get env [PyObj.str s] out h).1
  simpa using hlen

/-- Witness for `parse_images_single_eq_singleton` on an existing file. -/
theorem parse_images_single_eq_singleton_witness :
    parse_images demoEnv (ImagesInput.single (PyObj.str "a.jpg")) =
      parse_images demoEnv (ImagesInput.list [PyObj.str "a.jpg"]) ∧
    ([⟨"abytes", "RGB"⟩] : List PILImage).length = 1 :=
  ⟨(parse_images_single_eq_singleton demoEnv "a.jpg").1,
   (parse_images_single_eq_singleton demoEnv "a.jpg").2 [⟨"abytes", "RGB"⟩] rfl⟩

/-- C7 counterexample: with every URL fetch failing (no connectivity), the
input `["http://x", 123]` contains a non-string element, yet the call fails
with the propagated fetch exception, which is not a `ValueError`
(`InvalidInput`). -/
theorem parse_images_nonstring_counterexample :
    parse_images failEnv (ImagesInput.list [PyObj.str "http://x", PyObj.int 123]) =
      Except.error PyErr.otherError ∧
    ∀ msg, PyErr.otherError ≠ PyErr.valueError msg :=
  ⟨rfl, fun _ h => PyErr.noConfusion h⟩

/-- C7 amended: an input whose normalized list contains a non-string element
never succeeds; and when every element before the first non-string element
decodes successfully, the call fails with the `InvalidInput` `ValueError`. -/
theorem parse_images_nonstring_fails (env : ImageEnv) (pre post : List PyObj)
    (x : PyObj) (hx : ∀ s, x ≠ PyObj.str s) :
    (∃ e, parse_images env (ImagesInput.list (pre ++ x :: post)) =
      Except.error e) ∧
    ((∀ y ∈ pre, ∃ img, parseOneImage env y = Except.ok img) →
      parse_images env (ImagesInput.list (pre ++ x :: post)) =
        Except.error
          (PyErr.valueError "Input must be a string (local path or URL)")) := by
  have hxe : parseOneImage env x =
      Except.error (PyErr.valueError "Input must be a string (local path or URL)") := by
    cases x with
    | str s => exact absurd rfl (hx s)
    | int n => rfl
    | pyNone => rfl
  constructor
  · cases hres : parse_images env (ImagesInput.list (pre ++ x :: post)) with
    | error e => exact ⟨e, rfl⟩
    | ok out =>
        obtain ⟨img, himg⟩ :=
          parseImagesLoop_ok_mem env (pre ++ x :: post) out hres x (by simp)
        rw [hxe] at himg
        exact Except.noConfusion himg
  · intro hpre
    exact parseImagesLoop_append_error env pre hpre x _ hxe post

/-- Witness for `parse_images_nonstring_fails`: `["a.jpg", 123]` with the
file existing fails with the `ValueError`. -/
theorem parse_images_nonstring_fails_witness :
    parse_images demoEnv (ImagesInput.list [PyObj.str "a.jpg", PyObj.int 123]) =
      Except.error (PyErr.valueError "Input must be a string (local path or URL)") :=
  (parse_images_nonstring_fails demoEnv [PyObj.str "a.jpg"] [] (PyObj.int 123)
      (fun _ h => PyObj.noConfusion h)).2
    (by
      intro y hy
      simp only [List.mem_singleton] at hy
      subst hy
      exact ⟨⟨"abytes", "RGB"⟩, rfl⟩)

/-- C8 counterexample: with no connectivity and no local files, the input
`["http://x", "missing/file.png"]` contains a non-URL string naming a
missing file, yet the call fails with the earlier element's propagated fetch
exception, which is not a `ValueError` (`InvalidInput`). -/
theorem parse_images_missing_file_counterexample :
    (pyStartsWith "missing/file.png" "http://" ||
      pyStartsWith "missing/file.png" "https://") = false ∧
    failEnv.imageOpen "missing/file.png" = Except.error PyErr.fileNotFoundError ∧
    parse_images failEnv
        (ImagesInput.list [PyObj.str "http://x", PyObj.str "missing/file.png"]) =
      Except.error PyErr.otherError ∧
    ∀ msg, PyErr.otherError ≠ PyErr.valueError msg :=
  ⟨by decide, rfl, rfl, fun _ h => PyErr.noConfusion h⟩

/-- C8 amended: an input containing a non-URL string whose local open raises
`FileNotFoundError` never succeeds; and when every element before it decodes
successfully, the call fails with the `InvalidInput` `ValueError` naming the
missing path. -/
theorem parse_images_missing_file (env : ImageEnv) (pre post : List PyObj)
    (s : String)
    (hurl : (pyStartsWith s "http://" || pyStartsWith s "https://") = false)
    (hmiss : env.imageOpen s = Except.error PyErr.fileNotFoundError) :
    (∃ e, parse_images env (ImagesInput.list (pre ++ PyObj.str s :: post)) =
      Except.error e) ∧
    ((∀ y ∈ pre, ∃ img, parseOneImage env y = Except.ok img) →
      parse_images env (ImagesInput.list (pre ++ PyObj.str s :: post)) =
        Except.error (PyErr.valueError ("Local file not found: " ++ s))) := by
  have hxe : parseOneImage env (PyObj.str s) =
      Except.error (PyErr.valueError ("Local file not found: " ++ s)) := by
    simp [parseOneImage, hurl, hmiss]
  constructor
  · cases hres : parse_images env (ImagesInput.list (pre ++ PyObj.str s :: post)) with
    | error e => exact ⟨e, rfl⟩
    | ok out =>
        obtain ⟨img, himg⟩ :=
          parseImagesLoop_ok_mem env (pre ++ PyObj.str s :: post) out hres
            (PyObj.str s) (by simp)
        rw [hxe] at himg
        exact Except.noConfusion himg
  · intro hpre
    exact parseImagesLoop_append_error env pre hpre (PyObj.str s) _ hxe post

/-- Witness for `parse_images_missing_file`: the spec's
`["missing/file.png"]` example. -/
theorem parse_images_missing_file_witness :
    parse_images failEnv (ImagesInput.list [PyObj.str "missing/file.png"]) =
      Except.error (PyErr.valueError ("Local file not found: " ++ "missing/file.png")) :=
  (parse_images_missing_file failEnv [] [] "missing/file.png" (by decide) rfl).2
    (by intro y hy; cases hy)
